import Mathlib

/-!
# Shallow embedding of the Archive Workforce governance core

This file embeds the task-governance and audit engine of the repository
(`src/core/database.py` together with the authorization check of
`src/api/main.py`) and proves the behavioural properties stated in the
specification against that embedding.

Modelling conventions:
* The backing store is a pure record of tables (`DBState`); every mutating
  operation is a function from a state (plus the wall-clock instant `now`)
  to a result together with the successor state.  A Python `raise` that
  happens before any write is modelled by returning `Except.error` together
  with the *unchanged* input state.
* `uuid4()` is modelled by a fresh-id counter threaded through the state.
* ISO-8601 UTC timestamps compare exactly like their underlying instants,
  so timestamps are modelled as `Nat`.
* JSON dictionaries stored in audit/event rows are modelled by `JVal`.
* Python truthiness of optional string fields (`if agent_id:`,
  `not current.get("approved_by")`) is modelled as presence of the optional
  value; actor and agent identifiers are taken to be non-empty strings.
-/

set_option autoImplicit false

namespace Workforce

/-- JSON-like values used for audit-log and event payload columns. -/
inductive JVal where
  | str (s : String)
  | nat (n : Nat)
  | int (i : Int)
  | bool (b : Bool)
  | null
  | obj (fields : List (String × JVal))
  | arr (elems : List JVal)

/-- `TaskStatus` enum from `src/core/database.py`. -/
inductive TaskStatus where
  | BACKLOG
  | IN_PROGRESS
  | NEEDS_REVIEW
  | DONE
  | BLOCKED
  | CANCELLED
  deriving DecidableEq, Repr

/-- String value of a `TaskStatus`, as stored in the database rows. -/
def statusStr : TaskStatus → String
  | .BACKLOG => "BACKLOG"
  | .IN_PROGRESS => "IN_PROGRESS"
  | .NEEDS_REVIEW => "NEEDS_REVIEW"
  | .DONE => "DONE"
  | .BLOCKED => "BLOCKED"
  | .CANCELLED => "CANCELLED"

/-- A row of `workforce_tasks` (the `Task` dataclass). -/
structure Task where
  id : String
  title : String
  description : Option String := none
  owner_agent : Option String := none
  assigned_by : Option String := none
  status : TaskStatus := .BACKLOG
  priority : String := "P2"
  tags : List String := []
  source : String := "api"
  external_refs : JVal := .obj []
  impact_score : Option Int := none
  effort_estimate : Option String := none
  requires_approval : Bool := false
  approved_by : Option String := none
  approved_at : Option Nat := none
  parent_task_id : Option String := none
  due_at : Option Nat := none
  created_at : Nat := 0
  updated_at : Nat := 0

/-- A row of `workforce_deliverables`. -/
structure Deliverable where
  id : String
  task_id : String
  title : String
  content : String
  content_type : String
  created_by : String
  is_final : Bool
  created_at : Nat
  deriving DecidableEq, Repr

/-- A row of `workforce_insights`. -/
structure Insight where
  id : String
  task_id : Option String := none
  agent : String
  content : String
  insight_type : String := "observation"
  promoted_to_task_id : Option String := none
  promoted_at : Option Nat := none
  created_at : Nat := 0
  deriving DecidableEq, Repr

/-- A row of `workforce_audit_log`. -/
structure AuditEntry where
  id : String
  event_type : String
  entity_type : String
  entity_id : String
  actor : String
  actor_type : String
  old_value : Option JVal
  new_value : Option JVal
  metadata : JVal
  created_at : Nat

/-- A row of `workforce_events`. -/
structure Event where
  id : String
  event_type : String
  payload : JVal
  processed : Bool
  processed_at : Option Nat := none
  processed_by : Option String := none
  created_at : Nat

/-- A row of `workforce_autonomy_sessions`. -/
structure AutonomySession where
  id : String
  mode : String
  granted_by : String
  granted_to : Option String := none
  reason : Option String := none
  starts_at : Nat
  expires_at : Nat
  revoked_at : Option Nat := none
  revoked_by : Option String := none
  created_at : Nat
  deriving DecidableEq, Repr

/-- The backing store: one list per table, plus a fresh-id counter that
models `uuid4()`.  Rows are appended in insertion order. -/
structure DBState where
  nextId : Nat := 0
  tasks : List Task := []
  deliverables : List Deliverable := []
  insights : List Insight := []
  audit_log : List AuditEntry := []
  events : List Event := []
  autonomy_sessions : List AutonomySession := []

/-- Draw a fresh identifier (models `uuid4()`). -/
def freshId (s : DBState) : String × DBState :=
  ("uuid-" ++ toString s.nextId, { s with nextId := s.nextId + 1 })

/-- Serialization helper for optional strings (JSON null when absent). -/
def jstrOpt : Option String → JVal
  | none => .null
  | some v => .str v

/-- Serialization helper for optional timestamps. -/
def jnatOpt : Option Nat → JVal
  | none => .null
  | some v => .nat v

/-- Serialization helper for optional integers. -/
def jintOpt : Option Int → JVal
  | none => .null
  | some v => .int v

/-- `WorkforceDB._log_audit`: append one row to the append-only audit log
(`metadata or {}` defaults the metadata column to the empty object). -/
def log_audit (s : DBState) (now : Nat) (event_type entity_type entity_id actor actor_type : String)
    (old_value new_value metadata : Option JVal) : DBState :=
  let (aid, s1) := freshId s
  { s1 with audit_log := s1.audit_log ++
      [{ id := aid, event_type := event_type, entity_type := entity_type,
         entity_id := entity_id, actor := actor, actor_type := actor_type,
         old_value := old_value, new_value := new_value,
         metadata := metadata.getD (.obj []), created_at := now }] }

/-- `WorkforceDB._create_event`: append one unprocessed trigger row. -/
def create_event (s : DBState) (now : Nat) (event_type : String) (payload : JVal) : DBState :=
  let (eid, s1) := freshId s
  { s1 with events := s1.events ++
      [{ id := eid, event_type := event_type, payload := payload,
         processed := false, created_at := now }] }

/-- Actor classification used by `create_task`:
`"agent" if assigned_by in ["jarvis", "system"] else "human"`. -/
def createActorType (actor : String) : String :=
  if actor = "jarvis" ∨ actor = "system" then "agent" else "human"

/-- Actor classification used by `update_task`. -/
def updateActorType (actor : String) : String :=
  if actor = "jarvis" ∨ actor = "chief_of_staff" ∨ actor = "ops_tracker" ∨
     actor = "distribution" ∨ actor = "researcher" ∨ actor = "system"
  then "agent" else "human"

/-- Arguments of `WorkforceDB.create_task`, with the Python defaults. -/
structure CreateTaskArgs where
  title : String
  description : Option String := none
  owner_agent : Option String := none
  assigned_by : String := "system"
  priority : String := "P2"
  tags : Option (List String) := none
  source : String := "api"
  requires_approval : Bool := false
  parent_task_id : Option String := none
  due_at : Option Nat := none
  external_refs : Option JVal := none
  impact_score : Option Int := none
  effort_estimate : Option String := none

/-- The `task_data` dictionary that `create_task` inserts and records as the
`new_value` of its audit entry. -/
def taskDataJVal (t : Task) : JVal :=
  .obj [("id", .str t.id), ("title", .str t.title),
    ("description", jstrOpt t.description),
    ("owner_agent", jstrOpt t.owner_agent),
    ("assigned_by", jstrOpt t.assigned_by),
    ("status", .str (statusStr t.status)),
    ("priority", .str t.priority),
    ("tags", .arr (t.tags.map .str)),
    ("source", .str t.source),
    ("requires_approval", .bool t.requires_approval),
    ("parent_task_id", jstrOpt t.parent_task_id),
    ("due_at", jnatOpt t.due_at),
    ("external_refs", t.external_refs),
    ("impact_score", jintOpt t.impact_score),
    ("effort_estimate", jstrOpt t.effort_estimate),
    ("created_at", .nat t.created_at), ("updated_at", .nat t.updated_at)]

/-- `WorkforceDB.create_task`: insert the new task row, write one
TASK_CREATED audit entry and one TASK_CREATED event. -/
def create_task (s : DBState) (now : Nat) (a : CreateTaskArgs) : Task × DBState :=
  let (task_id, s1) := freshId s
  let task : Task :=
    { id := task_id, title := a.title, description := a.description,
      owner_agent := a.owner_agent, assigned_by := some a.assigned_by,
      status := .BACKLOG, priority := a.priority, tags := a.tags.getD [],
      source := a.source, external_refs := a.external_refs.getD (.obj []),
      impact_score := a.impact_score, effort_estimate := a.effort_estimate,
      requires_approval := a.requires_approval, approved_by := none,
      approved_at := none, parent_task_id := a.parent_task_id,
      due_at := a.due_at, created_at := now, updated_at := now }
  let s2 := { s1 with tasks := s1.tasks ++ [task] }
  let s3 := log_audit s2 now "TASK_CREATED" "task" task_id a.assigned_by
      (createActorType a.assigned_by) none (some (taskDataJVal task)) none
  let s4 := create_event s3 now "TASK_CREATED"
      (.obj [("task_id", .str task_id), ("owner_agent", jstrOpt a.owner_agent),
             ("priority", .str a.priority)])
  (task, s4)

/-- `WorkforceDB.get_task`: first row of `workforce_tasks` with this id. -/
def get_task (s : DBState) (task_id : String) : Option Task :=
  s.tasks.find? (fun t => t.id == task_id)

/-- Insertion step of the `order("created_at")` sort on deliverables. -/
def insertByCreatedAt (d : Deliverable) : List Deliverable → List Deliverable
  | [] => [d]
  | x :: xs =>
    if d.created_at ≤ x.created_at then d :: x :: xs else x :: insertByCreatedAt d xs

/-- `order("created_at")` on a list of deliverables (ascending). -/
def orderByCreatedAt : List Deliverable → List Deliverable
  | [] => []
  | x :: xs => insertByCreatedAt x (orderByCreatedAt xs)

/-- `WorkforceDB.get_deliverables`: all deliverable rows of the task,
ordered by `created_at`. -/
def get_deliverables (s : DBState) (task_id : String) : List Deliverable :=
  orderByCreatedAt (s.deliverables.filter (fun d => d.task_id == task_id))

/-- A partial update passed to `update_task` (`**updates`).  The outer
`Option` records whether the key is present in the patch; for nullable
columns the inner `Option` is the written value, so `some none` is an
explicit reset to SQL null (used by `reject_task`). -/
structure TaskPatch where
  title : Option String := none
  description : Option (Option String) := none
  owner_agent : Option (Option String) := none
  status : Option TaskStatus := none
  priority : Option String := none
  tags : Option (List String) := none
  requires_approval : Option Bool := none
  due_at : Option (Option Nat) := none
  approved_by : Option (Option String) := none
  approved_at : Option (Option Nat) := none

/-- Apply a patch verbatim to a task row, refreshing `updated_at`
(the `update(updates).eq("id", ...)` write). -/
def applyPatch (t : Task) (p : TaskPatch) (now : Nat) : Task :=
  { t with
    title := p.title.getD t.title
    description := p.description.getD t.description
    owner_agent := p.owner_agent.getD t.owner_agent
    status := p.status.getD t.status
    priority := p.priority.getD t.priority
    tags := p.tags.getD t.tags
    requires_approval := p.requires_approval.getD t.requires_approval
    due_at := p.due_at.getD t.due_at
    approved_by := p.approved_by.getD t.approved_by
    approved_at := p.approved_at.getD t.approved_at
    updated_at := now }

/-- The audit `old_value` of `update_task`: the pre-patch values of exactly
the touched keys (`updated_at` is in `updates` by the time the dict
comprehension runs, so its old value is captured as well). -/
def patchOld (t : Task) (p : TaskPatch) : JVal :=
  .obj ((match p.title with | some _ => [("title", JVal.str t.title)] | none => []) ++
    (match p.description with | some _ => [("description", jstrOpt t.description)] | none => []) ++
    (match p.owner_agent with | some _ => [("owner_agent", jstrOpt t.owner_agent)] | none => []) ++
    (match p.status with | some _ => [("status", JVal.str (statusStr t.status))] | none => []) ++
    (match p.priority with | some _ => [("priority", JVal.str t.priority)] | none => []) ++
    (match p.tags with | some _ => [("tags", JVal.arr (t.tags.map .str))] | none => []) ++
    (match p.requires_approval with | some _ => [("requires_approval", JVal.bool t.requires_approval)] | none => []) ++
    (match p.due_at with | some _ => [("due_at", jnatOpt t.due_at)] | none => []) ++
    (match p.approved_by with | some _ => [("approved_by", jstrOpt t.approved_by)] | none => []) ++
    (match p.approved_at with | some _ => [("approved_at", jnatOpt t.approved_at)] | none => []) ++
    [("updated_at", JVal.nat t.updated_at)])

/-- The audit `new_value` of `update_task`: the patch itself, including the
refreshed `updated_at`. -/
def patchNew (p : TaskPatch) (now : Nat) : JVal :=
  .obj ((match p.title with | some v => [("title", JVal.str v)] | none => []) ++
    (match p.description with | some v => [("description", jstrOpt v)] | none => []) ++
    (match p.owner_agent with | some v => [("owner_agent", jstrOpt v)] | none => []) ++
    (match p.status with | some v => [("status", JVal.str (statusStr v))] | none => []) ++
    (match p.priority with | some v => [("priority", JVal.str v)] | none => []) ++
    (match p.tags with | some v => [("tags", JVal.arr (v.map .str))] | none => []) ++
    (match p.requires_approval with | some v => [("requires_approval", JVal.bool v)] | none => []) ++
    (match p.due_at with | some v => [("due_at", jnatOpt v)] | none => []) ++
    (match p.approved_by with | some v => [("approved_by", jstrOpt v)] | none => []) ++
    (match p.approved_at with | some v => [("approved_at", jnatOpt v)] | none => []) ++
    [("updated_at", JVal.nat now)])

/-- Successor state of the write phase of `update_task`: persist the
patch, log the TASK_UPDATED audit entry and, only if the status actually
changed, emit the STATUS_CHANGED event. -/
def update_task_commit_state (s : DBState) (now : Nat) (task_id actor : String)
    (patch : TaskPatch) (current : Task) : DBState :=
  let s1 := { s with tasks :=
                s.tasks.map (fun t => if t.id == task_id then applyPatch t patch now else t) }
  let s2 := log_audit s1 now "TASK_UPDATED" "task" task_id actor
      (updateActorType actor) (some (patchOld current patch))
      (some (patchNew patch now)) none
  match patch.status with
  | some ns =>
    if ns ≠ current.status then
      create_event s2 now "STATUS_CHANGED"
        (.obj [("task_id", .str task_id),
               ("old_status", .str (statusStr current.status)),
               ("new_status", .str (statusStr ns))])
    else s2
  | none => s2

/-- The write phase of `update_task`: returns the freshly patched row
(`result.data[0]`) together with the successor state. -/
def update_task_commit (s : DBState) (now : Nat) (task_id actor : String)
    (patch : TaskPatch) (current : Task) : Except String Task × DBState :=
  (.ok (applyPatch current patch now),
   update_task_commit_state s now task_id actor patch current)

/-- The validation phase of `update_task`, with the current row in hand:
the deliverable and approval preconditions for a transition to DONE. -/
def update_task_checked (s : DBState) (now : Nat) (task_id actor : String)
    (patch : TaskPatch) (current : Task) : Except String Task × DBState :=
  if patch.status = some TaskStatus.DONE ∧ current.status ≠ TaskStatus.DONE then
    if get_deliverables s task_id = [] then
      (.error "Cannot mark task DONE without at least one deliverable", s)
    else if current.requires_approval = true ∧ current.approved_by = none then
      (.error "Task requires approval before marking DONE", s)
    else update_task_commit s now task_id actor patch current
  else update_task_commit s now task_id actor patch current

/-- `WorkforceDB.update_task`: read the current row (NotFound when absent),
enforce the DONE gate, then commit. -/
def update_task (s : DBState) (now : Nat) (task_id actor : String)
    (patch : TaskPatch) : Except String Task × DBState :=
  match get_task s task_id with
  | none => (.error ("Task " ++ task_id ++ " not found"), s)
  | some current => update_task_checked s now task_id actor patch current

/-- `WorkforceDB.add_deliverable`: insert the row and log one
DELIVERABLE_ADDED audit entry. -/
def add_deliverable (s : DBState) (now : Nat)
    (task_id title content created_by content_type : String) (is_final : Bool) :
    Deliverable × DBState :=
  let (deliverable_id, s1) := freshId s
  let d : Deliverable :=
    { id := deliverable_id, task_id := task_id, title := title,
      content := content, content_type := content_type,
      created_by := created_by, is_final := is_final, created_at := now }
  let s2 := { s1 with deliverables := s1.deliverables ++ [d] }
  let s3 := log_audit s2 now "DELIVERABLE_ADDED" "deliverable" deliverable_id
      created_by "agent" none
      (some (.obj [("task_id", .str task_id), ("title", .str title)])) none
  (d, s3)

/-- `WorkforceDB.add_insight`: insert the row and log one INSIGHT_ADDED
audit entry. -/
def add_insight (s : DBState) (now : Nat) (agent content : String)
    (task_id : Option String) (insight_type : String) : Insight × DBState :=
  let (insight_id, s1) := freshId s
  let i : Insight :=
    { id := insight_id, task_id := task_id, agent := agent, content := content,
      insight_type := insight_type, created_at := now }
  let s2 := { s1 with insights := s1.insights ++ [i] }
  let s3 := log_audit s2 now "INSIGHT_ADDED" "insight" insight_id agent "agent"
      none (some (.obj [("task_id", jstrOpt task_id), ("type", .str insight_type)]))
      none
  (i, s3)

/-- `WorkforceDB.promote_insight_to_task`: fetch the insight (NotFound when
absent), create the task from it, then stamp the insight's
`promoted_to_task_id` and `promoted_at`. -/
def promote_insight_to_task (s : DBState) (now : Nat)
    (insight_id promoted_by : String) : Except String Task × DBState :=
  match s.insights.find? (fun i => i.id == insight_id) with
  | none => (.error ("Insight " ++ insight_id ++ " not found"), s)
  | some ins =>
    let (task, s1) := create_task s now
      { title := "[From Insight] " ++ ins.content.take 100,
        description := some ins.content, assigned_by := promoted_by,
        source := "insight_promotion" }
    let s2 := { s1 with insights :=
                  s1.insights.map (fun i =>
                    if i.id == insight_id then
                      { i with promoted_to_task_id := some task.id, promoted_at := some now }
                    else i) }
    (.ok task, s2)

/-- The `/insights/.../promote` route of `src/api/main.py`: the single
authorization check (`actor == "jarvis"`) in front of
`promote_insight_to_task`. -/
def promote_insight (s : DBState) (now : Nat) (insight_id actor : String) :
    Except String Task × DBState :=
  if actor ≠ "jarvis" then
    (.error "Only Jarvis can promote insights to tasks", s)
  else promote_insight_to_task s now insight_id actor

/-- The patch `approve_task` hands to `update_task`:
`approved_by=approved_by, approved_at=now`. -/
def approvePatch (approved_by : String) (now : Nat) : TaskPatch :=
  { approved_by := some (some approved_by), approved_at := some (some now) }

/-- The patch `reject_task` hands to `update_task`:
`status="BACKLOG", approved_by=None, approved_at=None`. -/
def rejectPatch : TaskPatch :=
  { status := some .BACKLOG, approved_by := some none, approved_at := some none }

/-- The patch of the bare DONE transition `{status: DONE}`. -/
def donePatch : TaskPatch :=
  { status := some .DONE }

/-- `WorkforceDB.approve_task`: an `update_task` that sets
`approved_by`/`approved_at`, followed by one HUMAN_APPROVED audit entry. -/
def approve_task (s : DBState) (now : Nat) (task_id approved_by : String) :
    Except String Task × DBState :=
  match update_task s now task_id approved_by (approvePatch approved_by now) with
  | (.error e, s1) => (.error e, s1)
  | (.ok t, s1) =>
    let s2 := log_audit s1 now "HUMAN_APPROVED" "task" task_id approved_by
        "human" none (some (.obj [("approved_at", .nat now)])) none
    (.ok t, s2)

/-- `WorkforceDB.reject_task`: an `update_task` that forces status back to
BACKLOG and clears the approval fields, followed by one HUMAN_REJECTED
audit entry carrying the reason in its metadata. -/
def reject_task (s : DBState) (now : Nat) (task_id rejected_by : String)
    (reason : Option String) : Except String Task × DBState :=
  match update_task s now task_id rejected_by rejectPatch with
  | (.error e, s1) => (.error e, s1)
  | (.ok t, s1) =>
    let s2 := log_audit s1 now "HUMAN_REJECTED" "task" task_id rejected_by
        "human" none none (some (.obj [("reason", jstrOpt reason)]))
    (.ok t, s2)

/-- The session filter of `WorkforceDB.get_current_autonomy_mode`:
`starts_at < now`, `expires_at > now`, `revoked_at` null and — only when an
agent id is given — `granted_to` equal to it or null. -/
def sessionMatches (now : Nat) (agent_id : Option String)
    (sess : AutonomySession) : Bool :=
  decide (sess.starts_at < now) && decide (now < sess.expires_at) &&
  sess.revoked_at.isNone &&
  (match agent_id with
   | none => true
   | some a => sess.granted_to == some a || sess.granted_to == none)

/-- The `order("created_at", desc=True).limit(1)` selection: an element of
maximal `created_at` among the matching rows. -/
def latestByCreatedAt : List AutonomySession → Option AutonomySession
  | [] => none
  | x :: xs =>
    some (xs.foldl (fun acc t => if acc.created_at < t.created_at then t else acc) x)

/-- `WorkforceDB.get_current_autonomy_mode`: the mode of the most recently
created matching session, defaulting to `"advisory"`. -/
def get_current_autonomy_mode (s : DBState) (now : Nat)
    (agent_id : Option String) : String :=
  match latestByCreatedAt (s.autonomy_sessions.filter (sessionMatches now agent_id)) with
  | some sess => sess.mode
  | none => "advisory"

/-- The session filter exactly as the specification words it, for the
refinement comparison: a session is considered when `now` lies in the
half-open window `[starts_at, expires_at)` (left endpoint included),
`revoked_at` is unset and the scope applies.  Compare `sessionMatches`,
which is translated from the code and is strict at `starts_at`. -/
def sessionConsideredClaim (now : Nat) (agent_id : Option String)
    (sess : AutonomySession) : Bool :=
  decide (sess.starts_at ≤ now) && decide (now < sess.expires_at) &&
  sess.revoked_at.isNone &&
  (match agent_id with
   | none => true
   | some a => sess.granted_to == some a || sess.granted_to == none)

/-- Project the task out of a successful result (used to name the
components of concrete runs in the closing examples). -/
def okTask : Except String Task → Task
  | .ok t => t
  | .error _ => { id := "", title := "" }

/-! ### Concrete fixtures used by the witnesses and counterexamples -/

/-- An in-progress task without approval requirement. -/
def exTask : Task :=
  { id := "t1", title := "Demo task", owner_agent := some "researcher",
    assigned_by := some "system", status := .IN_PROGRESS,
    created_at := 1, updated_at := 1 }

/-- A task that requires approval and has not been approved. -/
def exTaskRA : Task :=
  { id := "t2", title := "Gated task", status := .NEEDS_REVIEW,
    requires_approval := true, created_at := 1, updated_at := 1 }

/-- A deliverable attached to `exTask`. -/
def exDeliv : Deliverable :=
  { id := "d1", task_id := "t1", title := "report", content := "the report",
    content_type := "text", created_by := "researcher", is_final := true,
    created_at := 2 }

/-- A deliverable attached to `exTaskRA`. -/
def exDelivRA : Deliverable :=
  { id := "d2", task_id := "t2", title := "draft", content := "the draft",
    content_type := "text", created_by := "researcher", is_final := false,
    created_at := 2 }

/-- Store holding `exTask` and no deliverables. -/
def dbNoDeliv : DBState := { nextId := 10, tasks := [exTask] }

/-- Store holding `exTask` together with its deliverable. -/
def dbWithDeliv : DBState :=
  { nextId := 10, tasks := [exTask], deliverables := [exDeliv] }

/-- Store holding the approval-gated `exTaskRA` with a deliverable. -/
def dbApproval : DBState :=
  { nextId := 10, tasks := [exTaskRA], deliverables := [exDelivRA] }

/-- A floating insight. -/
def exInsight : Insight :=
  { id := "i1", agent := "researcher",
    content := "Users keep asking for CSV export", created_at := 3 }

/-- Store holding only `exInsight`. -/
def dbInsight : DBState := { nextId := 20, insights := [exInsight] }

/-- A global advisory session created at instant 1. -/
def sessGlobal : AutonomySession :=
  { id := "s1", mode := "advisory", granted_by := "boss",
    starts_at := 0, expires_at := 100, created_at := 1 }

/-- A session scoped to agent `A`, created later, granting full autonomy. -/
def sessScopedA : AutonomySession :=
  { id := "s2", mode := "full_autonomy", granted_by := "boss",
    granted_to := some "A", starts_at := 0, expires_at := 100, created_at := 2 }

/-- Store holding the two overlapping autonomy sessions. -/
def dbAutonomy : DBState :=
  { autonomy_sessions := [sessGlobal, sessScopedA] }

/-- A session whose window starts exactly at instant 5. -/
def sessBoundary : AutonomySession :=
  { id := "s3", mode := "full_autonomy", granted_by := "boss",
    starts_at := 5, expires_at := 100, created_at := 1 }

/-- Store holding only the boundary session. -/
def dbBoundary : DBState := { autonomy_sessions := [sessBoundary] }

/-! ### Helper lemmas -/

theorem find?_map_ite {α : Type} (p : α → Bool) (g : α → α)
    (hg : ∀ x, p (g x) = p x) :
    ∀ (l : List α) (a : α), l.find? p = some a →
      (l.map (fun x => if p x then g x else x)).find? p = some (g a) := by
  intro l
  induction l with
  | nil => intro a h; simp at h
  | cons x xs ih =>
    intro a h
    by_cases hp : p x = true
    · rw [List.find?_cons_of_pos _ hp] at h
      injection h with h
      subst h
      simp only [List.map_cons, if_pos hp]
      exact List.find?_cons_of_pos _ (by rw [hg]; exact hp)
    · have hp' : ¬ p x = true := hp
      rw [List.find?_cons_of_neg _ hp'] at h
      simp only [List.map_cons, if_neg hp']
      rw [List.find?_cons_of_neg _ hp']
      exact ih a h

theorem applyPatch_id (t : Task) (p : TaskPatch) (now : Nat) :
    (applyPatch t p now).id = t.id := rfl

/-- The patched row replaces the original row for `get_task`. -/
theorem get_task_map_patch (s : DBState) (now : Nat) (task_id : String)
    (patch : TaskPatch) (t : Task) (h : get_task s task_id = some t) :
    (s.tasks.map (fun x => if x.id == task_id then applyPatch x patch now else x)).find?
        (fun x => x.id == task_id) = some (applyPatch t patch now) := by
  have h' : s.tasks.find? (fun x => x.id == task_id) = some t := h
  exact find?_map_ite (fun x => x.id == task_id) (fun x => applyPatch x patch now)
    (fun x => rfl) s.tasks t h'

/-! ### Reduction lemmas for `update_task` and the commit phase -/

theorem update_task_not_found (s : DBState) (now : Nat) (task_id actor : String)
    (patch : TaskPatch) (h : get_task s task_id = none) :
    update_task s now task_id actor patch =
      (.error ("Task " ++ task_id ++ " not found"), s) := by
  unfold update_task
  rw [h]

theorem update_task_found (s : DBState) (now : Nat) (task_id actor : String)
    (patch : TaskPatch) (t : Task) (h : get_task s task_id = some t) :
    update_task s now task_id actor patch =
      update_task_checked s now task_id actor patch t := by
  unfold update_task
  rw [h]

theorem update_task_checked_no_gate (s : DBState) (now : Nat)
    (task_id actor : String) (patch : TaskPatch) (t : Task)
    (h : ¬(patch.status = some TaskStatus.DONE ∧ t.status ≠ TaskStatus.DONE)) :
    update_task_checked s now task_id actor patch t =
      update_task_commit s now task_id actor patch t := by
  unfold update_task_checked
  rw [if_neg h]

theorem update_task_checked_gate_ok (s : DBState) (now : Nat)
    (task_id actor : String) (patch : TaskPatch) (t : Task)
    (hdel : get_deliverables s task_id ≠ [])
    (happ : ¬(t.requires_approval = true ∧ t.approved_by = none)) :
    update_task_checked s now task_id actor patch t =
      update_task_commit s now task_id actor patch t := by
  unfold update_task_checked
  by_cases h : patch.status = some TaskStatus.DONE ∧ t.status ≠ TaskStatus.DONE
  · rw [if_pos h, if_neg hdel, if_neg happ]
  · rw [if_neg h]

theorem update_task_checked_fail_deliverable (s : DBState) (now : Nat)
    (task_id actor : String) (patch : TaskPatch) (t : Task)
    (hs : patch.status = some TaskStatus.DONE) (hnd : t.status ≠ TaskStatus.DONE)
    (hdel : get_deliverables s task_id = []) :
    update_task_checked s now task_id actor patch t =
      (.error "Cannot mark task DONE without at least one deliverable", s) := by
  unfold update_task_checked
  rw [if_pos ⟨hs, hnd⟩, if_pos hdel]

theorem update_task_checked_fail_approval (s : DBState) (now : Nat)
    (task_id actor : String) (patch : TaskPatch) (t : Task)
    (hs : patch.status = some TaskStatus.DONE) (hnd : t.status ≠ TaskStatus.DONE)
    (hdel : get_deliverables s task_id ≠ [])
    (hra : t.requires_approval = true) (hab : t.approved_by = none) :
    update_task_checked s now task_id actor patch t =
      (.error "Task requires approval before marking DONE", s) := by
  unfold update_task_checked
  rw [if_pos ⟨hs, hnd⟩, if_neg hdel, if_pos ⟨hra, hab⟩]

/-- A successful `update_task` went through the commit phase on the row it
read. -/
theorem update_task_ok_commit (s : DBState) (now : Nat) (task_id actor : String)
    (patch : TaskPatch) (t : Task) (s' : DBState)
    (h : update_task s now task_id actor patch = (.ok t, s')) :
    ∃ current, get_task s task_id = some current ∧
      t = applyPatch current patch now ∧
      s' = update_task_commit_state s now task_id actor patch current := by
  cases hg : get_task s task_id with
  | none =>
    rw [update_task_not_found s now task_id actor patch hg] at h
    simp at h
  | some current =>
    rw [update_task_found s now task_id actor patch current hg] at h
    refine ⟨current, rfl, ?_⟩
    unfold update_task_checked at h
    split at h
    · split at h
      · simp at h
      · split at h
        · simp at h
        · unfold update_task_commit at h
          simp only [Prod.mk.injEq, Except.ok.injEq] at h
          exact ⟨h.1.symm, h.2.symm⟩
    · unfold update_task_commit at h
      simp only [Prod.mk.injEq, Except.ok.injEq] at h
      exact ⟨h.1.symm, h.2.symm⟩

theorem commit_state_tasks (s : DBState) (now : Nat) (task_id actor : String)
    (patch : TaskPatch) (current : Task) :
    (update_task_commit_state s now task_id actor patch current).tasks =
      s.tasks.map (fun x => if x.id == task_id then applyPatch x patch now else x) := by
  unfold update_task_commit_state log_audit create_event freshId
  cases hp : patch.status with
  | none => rfl
  | some ns =>
    by_cases h : ns = current.status <;>
      simp only [ne_eq, h, not_true_eq_false, not_false_eq_true, if_true, if_false]

theorem commit_state_deliverables (s : DBState) (now : Nat) (task_id actor : String)
    (patch : TaskPatch) (current : Task) :
    (update_task_commit_state s now task_id actor patch current).deliverables =
      s.deliverables := by
  unfold update_task_commit_state log_audit create_event freshId
  cases hp : patch.status with
  | none => rfl
  | some ns =>
    by_cases h : ns = current.status <;>
      simp only [ne_eq, h, not_true_eq_false, not_false_eq_true, if_true, if_false]

theorem commit_state_audit (s : DBState) (now : Nat) (task_id actor : String)
    (patch : TaskPatch) (current : Task) :
    ∃ a, (update_task_commit_state s now task_id actor patch current).audit_log =
        s.audit_log ++ [a] ∧
      a.event_type = "TASK_UPDATED" ∧ a.entity_id = task_id := by
  unfold update_task_commit_state log_audit create_event freshId
  cases hp : patch.status with
  | none => exact ⟨_, rfl, rfl, rfl⟩
  | some ns =>
    by_cases h : ns = current.status <;>
      simp only [ne_eq, h, not_true_eq_false, not_false_eq_true, if_true, if_false] <;>
      exact ⟨_, rfl, rfl, rfl⟩

theorem commit_state_events_changed (s : DBState) (now : Nat)
    (task_id actor : String) (patch : TaskPatch) (current : Task) (ns : TaskStatus)
    (hs : patch.status = some ns) (hne : ns ≠ current.status) :
    ∃ e, (update_task_commit_state s now task_id actor patch current).events =
        s.events ++ [e] ∧
      e.event_type = "STATUS_CHANGED" ∧ e.processed = false ∧
      e.payload = JVal.obj [("task_id", .str task_id),
        ("old_status", .str (statusStr current.status)),
        ("new_status", .str (statusStr ns))] := by
  unfold update_task_commit_state log_audit create_event freshId
  simp only [hs, ne_eq, hne, not_false_eq_true, if_true]
  exact ⟨_, rfl, rfl, rfl, rfl⟩

theorem commit_state_events_no_status (s : DBState) (now : Nat)
    (task_id actor : String) (patch : TaskPatch) (current : Task)
    (hs : patch.status = none) :
    (update_task_commit_state s now task_id actor patch current).events =
      s.events := by
  unfold update_task_commit_state log_audit create_event freshId
  simp only [hs]

theorem commit_state_events_same_status (s : DBState) (now : Nat)
    (task_id actor : String) (patch : TaskPatch) (current : Task) (ns : TaskStatus)
    (hs : patch.status = some ns) (hsame : ns = current.status) :
    (update_task_commit_state s now task_id actor patch current).events =
      s.events := by
  unfold update_task_commit_state log_audit create_event freshId
  simp only [hs, ne_eq, hsame, not_true_eq_false, if_false]

theorem commit_state_get_task (s : DBState) (now : Nat) (task_id actor : String)
    (patch : TaskPatch) (current : Task) (h : get_task s task_id = some current) :
    get_task (update_task_commit_state s now task_id actor patch current) task_id =
      some (applyPatch current patch now) := by
  unfold get_task
  rw [commit_state_tasks]
  exact get_task_map_patch s now task_id patch current h

/-! ### Lemmas on the autonomy resolver -/

theorem foldl_later_mem : ∀ (xs : List AutonomySession) (x : AutonomySession),
    xs.foldl (fun acc t => if acc.created_at < t.created_at then t else acc) x ∈ x :: xs := by
  intro xs
  induction xs with
  | nil => intro x; exact List.mem_cons_self x []
  | cons y ys ih =>
    intro x
    simp only [List.foldl_cons]
    by_cases hc : x.created_at < y.created_at
    · rw [if_pos hc]
      have h := ih y
      simp only [List.mem_cons] at h ⊢
      tauto
    · rw [if_neg hc]
      have h := ih x
      simp only [List.mem_cons] at h ⊢
      tauto

theorem foldl_later_ge : ∀ (xs : List AutonomySession) (x t : AutonomySession),
    t ∈ x :: xs →
    t.created_at ≤
      (xs.foldl (fun acc u => if acc.created_at < u.created_at then u else acc) x).created_at := by
  intro xs
  induction xs with
  | nil =>
    intro x t ht
    simp only [List.foldl_nil]
    rcases List.mem_cons.mp ht with h1 | h1
    · subst h1; exact Nat.le_refl _
    · simp at h1
  | cons y ys ih =>
    intro x t ht
    simp only [List.foldl_cons]
    have hzx : x.created_at ≤ (if x.created_at < y.created_at then y else x).created_at := by
      by_cases hc : x.created_at < y.created_at
      · rw [if_pos hc]; exact Nat.le_of_lt hc
      · rw [if_neg hc]
    have hzy : y.created_at ≤ (if x.created_at < y.created_at then y else x).created_at := by
      by_cases hc : x.created_at < y.created_at
      · rw [if_pos hc]
      · rw [if_neg hc]; exact Nat.le_of_not_lt hc
    have hzr := ih (if x.created_at < y.created_at then y else x)
        (if x.created_at < y.created_at then y else x) (List.mem_cons_self _ _)
    rcases List.mem_cons.mp ht with h1 | h1
    · subst h1; exact le_trans hzx hzr
    · rcases List.mem_cons.mp h1 with h2 | h2
      · subst h2; exact le_trans hzy hzr
      · exact ih _ t (List.mem_cons.mpr (Or.inr h2))

theorem latestByCreatedAt_mem (l : List AutonomySession) (r : AutonomySession)
    (h : latestByCreatedAt l = some r) : r ∈ l := by
  cases l with
  | nil => simp [latestByCreatedAt] at h
  | cons x xs =>
    simp only [latestByCreatedAt, Option.some.injEq] at h
    exact h ▸ foldl_later_mem xs x

theorem latestByCreatedAt_ge (l : List AutonomySession) (r : AutonomySession)
    (h : latestByCreatedAt l = some r) :
    ∀ t ∈ l, t.created_at ≤ r.created_at := by
  cases l with
  | nil => simp [latestByCreatedAt] at h
  | cons x xs =>
    simp only [latestByCreatedAt, Option.some.injEq] at h
    intro t ht
    exact h ▸ foldl_later_ge xs x t ht

theorem latestByCreatedAt_strict_max (l : List AutonomySession)
    (sess : AutonomySession) (hmem : sess ∈ l)
    (hmax : ∀ t ∈ l, t ≠ sess → t.created_at < sess.created_at) :
    latestByCreatedAt l = some sess := by
  cases hl : latestByCreatedAt l with
  | none =>
    cases l with
    | nil => simp at hmem
    | cons x xs => simp [latestByCreatedAt] at hl
  | some r =>
    have hrmem := latestByCreatedAt_mem _ _ hl
    have hge := latestByCreatedAt_ge _ _ hl sess hmem
    by_cases hr : r = sess
    · exact congrArg some hr
    · have hlt := hmax r hrmem hr
      omega

/-- The most recently created matching session determines the resolved
mode, provided its `created_at` is a strict maximum among the matches. -/
theorem mode_of_strict_max (db : DBState) (now : Nat) (agentId : Option String)
    (sess : AutonomySession) (hmem : sess ∈ db.autonomy_sessions)
    (hmatch : sessionMatches now agentId sess = true)
    (hmax : ∀ t ∈ db.autonomy_sessions, sessionMatches now agentId t = true →
      t ≠ sess → t.created_at < sess.created_at) :
    get_current_autonomy_mode db now agentId = sess.mode := by
  unfold get_current_autonomy_mode
  rw [latestByCreatedAt_strict_max _ sess (List.mem_filter.mpr ⟨hmem, hmatch⟩)
    (fun t ht hne =>
      hmax t (List.mem_filter.mp ht).1 (List.mem_filter.mp ht).2 hne)]

/-- With no matching session the resolver falls back to the default. -/
theorem mode_default (db : DBState) (now : Nat) (agentId : Option String)
    (h : ∀ t ∈ db.autonomy_sessions, sessionMatches now agentId t = false) :
    get_current_autonomy_mode db now agentId = "advisory" := by
  unfold get_current_autonomy_mode
  have hnil : db.autonomy_sessions.filter (sessionMatches now agentId) = [] := by
    rw [List.filter_eq_nil_iff]
    intro a ha
    rw [h a ha]
    simp
  rw [hnil]
  rfl

/-- The code's session filter, characterised as a proposition. -/
theorem sessionMatches_iff (now : Nat) (agentId : Option String)
    (sess : AutonomySession) :
    sessionMatches now agentId sess = true ↔
      (sess.starts_at < now ∧ now < sess.expires_at ∧ sess.revoked_at = none ∧
       (∀ a, agentId = some a → (sess.granted_to = some a ∨ sess.granted_to = none))) := by
  unfold sessionMatches
  cases agentId with
  | none =>
    simp [Bool.and_eq_true, decide_eq_true_eq, Option.isNone_iff_eq_none, and_assoc]
  | some a =>
    simp [Bool.and_eq_true, decide_eq_true_eq, Option.isNone_iff_eq_none, and_assoc]

/-! ### Lemmas on the surrounding operations -/

theorem log_audit_entry (s : DBState) (now : Nat)
    (ety enty enid act acty : String) (ov nv md : Option JVal) :
    ∃ entry, (log_audit s now ety enty enid act acty ov nv md).audit_log =
        s.audit_log ++ [entry] ∧
      entry.event_type = ety ∧ entry.entity_id = enid ∧
      entry.old_value = ov ∧ entry.new_value = nv ∧
      entry.metadata = md.getD (.obj []) :=
  ⟨_, rfl, rfl, rfl, rfl, rfl, rfl⟩

theorem get_task_log_audit (s : DBState) (now : Nat)
    (ety enty enid act acty : String) (ov nv md : Option JVal) (tid : String) :
    get_task (log_audit s now ety enty enid act acty ov nv md) tid =
      get_task s tid := rfl

theorem get_deliverables_log_audit (s : DBState) (now : Nat)
    (ety enty enid act acty : String) (ov nv md : Option JVal) (tid : String) :
    get_deliverables (log_audit s now ety enty enid act acty ov nv md) tid =
      get_deliverables s tid := rfl

/-- Once the row exists, has a deliverable, and is not blocked on
approval, the DONE transition goes through and yields a DONE row. -/
theorem update_task_done_ok (db1 : DBState) (now2 : Nat) (tid actor : String)
    (ta : Task) (h1 : get_task db1 tid = some ta)
    (hdel : get_deliverables db1 tid ≠ [])
    (happ : ¬(ta.requires_approval = true ∧ ta.approved_by = none)) :
    ∃ t' db2, update_task db1 now2 tid actor donePatch = (.ok t', db2) ∧
      t'.status = TaskStatus.DONE := by
  rw [update_task_found db1 now2 tid actor donePatch ta h1,
      update_task_checked_gate_ok db1 now2 tid actor donePatch ta hdel happ]
  exact ⟨_, _, rfl, rfl⟩

/-- `approve_task` on an existing row always commits: the inner
`update_task` carries no status key, so the DONE gate is skipped. -/
theorem approve_task_eq (db : DBState) (now : Nat) (tid approver : String)
    (t : Task) (h : get_task db tid = some t) :
    approve_task db now tid approver =
      (.ok (applyPatch t (approvePatch approver now) now),
       log_audit (update_task_commit_state db now tid approver
           (approvePatch approver now) t)
         now "HUMAN_APPROVED" "task" tid approver "human" none
         (some (.obj [("approved_at", .nat now)])) none) := by
  unfold approve_task
  rw [update_task_found db now tid approver _ t h,
      update_task_checked_no_gate db now tid approver _ t
        (fun hc => Option.noConfusion hc.1)]
  rfl

/-- `reject_task` on an existing row always commits: the forced status is
BACKLOG, so the DONE gate is skipped. -/
theorem reject_task_eq (db : DBState) (now : Nat) (tid rejector : String)
    (reason : Option String) (t : Task) (h : get_task db tid = some t) :
    reject_task db now tid rejector reason =
      (.ok (applyPatch t rejectPatch now),
       log_audit (update_task_commit_state db now tid rejector rejectPatch t)
         now "HUMAN_REJECTED" "task" tid rejector "human" none none
         (some (.obj [("reason", jstrOpt reason)]))) := by
  unfold reject_task
  rw [update_task_found db now tid rejector _ t h,
      update_task_checked_no_gate db now tid rejector _ t
        (fun hc => absurd hc.1 (by decide))]
  rfl

theorem create_task_audit (db : DBState) (now : Nat) (args : CreateTaskArgs) :
    ∃ a, ((create_task db now args).2).audit_log = db.audit_log ++ [a] ∧
      a.entity_id = (create_task db now args).1.id ∧
      a.event_type = "TASK_CREATED" :=
  ⟨_, rfl, rfl, rfl⟩

theorem add_deliverable_audit (db : DBState) (now : Nat)
    (tid title content creator ctype : String) (fin : Bool) :
    ∃ a, ((add_deliverable db now tid title content creator ctype fin).2).audit_log =
        db.audit_log ++ [a] ∧
      a.entity_id = (add_deliverable db now tid title content creator ctype fin).1.id ∧
      a.event_type = "DELIVERABLE_ADDED" :=
  ⟨_, rfl, rfl, rfl⟩

theorem add_insight_audit (db : DBState) (now : Nat) (agent content : String)
    (tid : Option String) (itype : String) :
    ∃ a, ((add_insight db now agent content tid itype).2).audit_log =
        db.audit_log ++ [a] ∧
      a.entity_id = (add_insight db now agent content tid itype).1.id ∧
      a.event_type = "INSIGHT_ADDED" :=
  ⟨_, rfl, rfl, rfl⟩

/-- A successful `approve_task` appends exactly two audit entries: the
TASK_UPDATED entry of the inner update and its own HUMAN_APPROVED entry. -/
theorem approve_task_audit (db : DBState) (now : Nat) (tid approver : String)
    (t : Task) (h : get_task db tid = some t) :
    ∃ a1 a2, ((approve_task db now tid approver).2).audit_log =
        db.audit_log ++ [a1, a2] ∧
      a1.entity_id = tid ∧ a2.entity_id = tid ∧
      a1.event_type = "TASK_UPDATED" ∧ a2.event_type = "HUMAN_APPROVED" := by
  rw [approve_task_eq db now tid approver t h]
  obtain ⟨a1, ha1, hty1, hid1⟩ :=
    commit_state_audit db now tid approver (approvePatch approver now) t
  obtain ⟨a2, ha2, hty2, hid2, _, _, _⟩ :=
    log_audit_entry (update_task_commit_state db now tid approver
        (approvePatch approver now) t)
      now "HUMAN_APPROVED" "task" tid approver "human" none
      (some (.obj [("approved_at", .nat now)])) none
  refine ⟨a1, a2, ?_, hid1, hid2, hty1, hty2⟩
  rw [ha2, ha1]
  simp

/-- A successful `reject_task` appends exactly two audit entries: the
TASK_UPDATED entry of the inner update and its own HUMAN_REJECTED entry,
which carries the reason in its metadata only. -/
theorem reject_task_audit (db : DBState) (now : Nat) (tid rejector : String)
    (reason : Option String) (t : Task) (h : get_task db tid = some t) :
    ∃ a1 a2, ((reject_task db now tid rejector reason).2).audit_log =
        db.audit_log ++ [a1, a2] ∧
      a1.entity_id = tid ∧ a2.entity_id = tid ∧
      a1.event_type = "TASK_UPDATED" ∧ a2.event_type = "HUMAN_REJECTED" ∧
      a2.metadata = JVal.obj [("reason", jstrOpt reason)] ∧
      a2.old_value = none ∧ a2.new_value = none := by
  rw [reject_task_eq db now tid rejector reason t h]
  obtain ⟨a1, ha1, hty1, hid1⟩ :=
    commit_state_audit db now tid rejector rejectPatch t
  obtain ⟨a2, ha2, hty2, hid2, hov2, hnv2, hmd2⟩ :=
    log_audit_entry (update_task_commit_state db now tid rejector rejectPatch t)
      now "HUMAN_REJECTED" "task" tid rejector "human" none none
      (some (.obj [("reason", jstrOpt reason)]))
  refine ⟨a1, a2, ?_, hid1, hid2, hty1, hty2, ?_, hov2, hnv2⟩
  · rw [ha2, ha1]
    simp
  · rw [hmd2]
    rfl

/-! ### The claims -/

/-- C1: for every existing task whose status is not DONE, the update
`{status: DONE}` fails with the PreconditionFailed error ("Cannot mark
task DONE without at least one deliverable") and leaves the whole store
unchanged when the task has zero deliverables, and the same call succeeds
(producing a DONE row) once the task has at least one deliverable,
provided approval is not required or has already been granted. -/
theorem c1_done_requires_deliverable
    (db : DBState) (now : Nat) (tid actor : String) (t : Task)
    (h : get_task db tid = some t) (hnd : t.status ≠ TaskStatus.DONE) :
    (get_deliverables db tid = [] →
      update_task db now tid actor donePatch =
        (.error "Cannot mark task DONE without at least one deliverable", db))
    ∧ (get_deliverables db tid ≠ [] →
       (t.requires_approval = false ∨ t.approved_by ≠ none) →
       ∃ t' db', update_task db now tid actor donePatch = (.ok t', db') ∧
         t'.status = TaskStatus.DONE) := by
  refine ⟨fun hdel => ?_, fun hdel happ => ?_⟩
  · rw [update_task_found db now tid actor donePatch t h]
    exact update_task_checked_fail_deliverable db now tid actor donePatch t rfl hnd hdel
  · have ha : ¬(t.requires_approval = true ∧ t.approved_by = none) := by
      rcases happ with h1 | h2
      · intro hc
        rw [h1] at hc
        exact absurd hc.1 (by simp)
      · intro hc
        exact h2 hc.2
    exact update_task_done_ok db now tid actor t h hdel ha

/-- Witness for C1 at the concrete stores `dbNoDeliv` and `dbWithDeliv`. -/
theorem c1_done_requires_deliverable_witness :
    (get_task dbNoDeliv "t1" = some exTask ∧ exTask.status ≠ TaskStatus.DONE ∧
      get_deliverables dbNoDeliv "t1" = [] ∧
      update_task dbNoDeliv 5 "t1" "alice" donePatch =
        (.error "Cannot mark task DONE without at least one deliverable", dbNoDeliv)) ∧
    (get_task dbWithDeliv "t1" = some exTask ∧
      get_deliverables dbWithDeliv "t1" ≠ [] ∧
      ∃ t' db', update_task dbWithDeliv 5 "t1" "alice" donePatch = (.ok t', db') ∧
        t'.status = TaskStatus.DONE) := by
  refine ⟨⟨rfl, by decide, rfl, ?_⟩, ⟨rfl, by decide, ?_⟩⟩
  · exact (c1_done_requires_deliverable dbNoDeliv 5 "t1" "alice" exTask rfl
      (by decide)).1 rfl
  · exact (c1_done_requires_deliverable dbWithDeliv 5 "t1" "alice" exTask rfl
      (by decide)).2 (by decide) (Or.inl rfl)

/-- C2: for every existing task with requires_approval and no approval
recorded, the DONE transition fails with the approval PreconditionFailed
even with a deliverable present; `approve_task` (which records
approved_by = actor and approved_at = now) succeeds, and after it the
same DONE transition goes through. -/
theorem c2_approval_gates_done
    (db : DBState) (now now2 : Nat) (tid actor approver : String) (t : Task)
    (h : get_task db tid = some t) (hnd : t.status ≠ TaskStatus.DONE)
    (hra : t.requires_approval = true) (hab : t.approved_by = none)
    (hdel : get_deliverables db tid ≠ []) :
    update_task db now tid actor donePatch =
      (.error "Task requires approval before marking DONE", db)
    ∧ ∃ ta db1, approve_task db now tid approver = (.ok ta, db1)
        ∧ ta.approved_by = some approver ∧ ta.approved_at = some now
        ∧ ∃ t' db2, update_task db1 now2 tid actor donePatch = (.ok t', db2)
            ∧ t'.status = TaskStatus.DONE := by
  constructor
  · rw [update_task_found db now tid actor donePatch t h]
    exact update_task_checked_fail_approval db now tid actor donePatch t rfl hnd
      hdel hra hab
  · rw [approve_task_eq db now tid approver t h]
    refine ⟨_, _, rfl, rfl, rfl, ?_⟩
    apply update_task_done_ok
    · rw [get_task_log_audit]
      exact commit_state_get_task db now tid approver (approvePatch approver now) t h
    · rw [get_deliverables_log_audit]
      unfold get_deliverables
      rw [commit_state_deliverables]
      exact hdel
    · exact fun hc => Option.noConfusion hc.2

/-- Witness for C2 at the concrete store `dbApproval`. -/
theorem c2_approval_gates_done_witness :
    get_task dbApproval "t2" = some exTaskRA ∧
    exTaskRA.status ≠ TaskStatus.DONE ∧ exTaskRA.requires_approval = true ∧
    exTaskRA.approved_by = none ∧ get_deliverables dbApproval "t2" ≠ [] ∧
    (update_task dbApproval 5 "t2" "bob" donePatch =
      (.error "Task requires approval before marking DONE", dbApproval)
    ∧ ∃ ta db1, approve_task dbApproval 5 "t2" "boss" = (.ok ta, db1)
        ∧ ta.approved_by = some "boss" ∧ ta.approved_at = some 5
        ∧ ∃ t' db2, update_task db1 6 "t2" "bob" donePatch = (.ok t', db2)
            ∧ t'.status = TaskStatus.DONE) :=
  ⟨rfl, by decide, rfl, rfl, by decide,
   c2_approval_gates_done dbApproval 5 6 "t2" "bob" "boss" exTaskRA rfl
     (by decide) rfl rfl (by decide)⟩

/-- C8: whenever the DONE gate of `update_task` fails (row exists, patch
sets status to DONE, current status is not DONE, and either there are no
deliverables or approval is required but missing), the call returns an
error together with the input store unchanged — no task write, no audit
entry, no event. -/
theorem c8_gate_fails_without_write
    (db : DBState) (now : Nat) (tid actor : String) (patch : TaskPatch) (t : Task)
    (h : get_task db tid = some t) (hs : patch.status = some TaskStatus.DONE)
    (hnd : t.status ≠ TaskStatus.DONE)
    (hfail : get_deliverables db tid = [] ∨
      (t.requires_approval = true ∧ t.approved_by = none)) :
    ∃ msg, update_task db now tid actor patch = (.error msg, db) := by
  rw [update_task_found db now tid actor patch t h]
  rcases hfail with hdel | ⟨hra, hab⟩
  · exact ⟨_, update_task_checked_fail_deliverable db now tid actor patch t hs hnd hdel⟩
  · by_cases hdel : get_deliverables db tid = []
    · exact ⟨_, update_task_checked_fail_deliverable db now tid actor patch t hs hnd hdel⟩
    · exact ⟨_, update_task_checked_fail_approval db now tid actor patch t hs hnd hdel hra hab⟩

/-- Witness for C8 at the concrete store `dbNoDeliv`. -/
theorem c8_gate_fails_without_write_witness :
    get_task dbNoDeliv "t1" = some exTask ∧
    donePatch.status = some TaskStatus.DONE ∧
    exTask.status ≠ TaskStatus.DONE ∧
    get_deliverables dbNoDeliv "t1" = [] ∧
    ∃ msg, update_task dbNoDeliv 5 "t1" "alice" donePatch = (.error msg, dbNoDeliv) :=
  ⟨rfl, rfl, by decide, rfl,
   c8_gate_fails_without_write dbNoDeliv 5 "t1" "alice" donePatch exTask rfl rfl
     (by decide) (Or.inl rfl)⟩

/-- C5: a successful `update_task` appends exactly one unprocessed
STATUS_CHANGED event carrying `{task_id, old_status, new_status}` when the
patch changes the status, and appends no event at all when the patch
carries no status key or repeats the current status. -/
theorem c5_status_change_event
    (db : DBState) (now : Nat) (tid actor : String) (patch : TaskPatch)
    (t t' : Task) (db' : DBState)
    (h : get_task db tid = some t)
    (hok : update_task db now tid actor patch = (.ok t', db')) :
    (∀ ns, patch.status = some ns → ns ≠ t.status →
      ∃ e, db'.events = db.events ++ [e] ∧ e.event_type = "STATUS_CHANGED" ∧
        e.processed = false ∧
        e.payload = JVal.obj [("task_id", .str tid),
          ("old_status", .str (statusStr t.status)),
          ("new_status", .str (statusStr ns))])
    ∧ (patch.status = none → db'.events = db.events)
    ∧ (patch.status = some t.status → db'.events = db.events) := by
  obtain ⟨current, hc, ht', hdb'⟩ :=
    update_task_ok_commit db now tid actor patch t' db' hok
  rw [h] at hc
  injection hc with hc
  subst hc
  subst hdb'
  refine ⟨?_, ?_, ?_⟩
  · intro ns hs hne
    exact commit_state_events_changed db now tid actor patch t ns hs hne
  · intro hs
    exact commit_state_events_no_status db now tid actor patch t hs
  · intro hs
    exact commit_state_events_same_status db now tid actor patch t t.status hs rfl

/-- Witness for C5: the DONE transition on `dbWithDeliv`. -/
theorem c5_status_change_event_witness :
    get_task dbWithDeliv "t1" = some exTask ∧
    (update_task dbWithDeliv 5 "t1" "alice" donePatch =
      (.ok (okTask (update_task dbWithDeliv 5 "t1" "alice" donePatch).1),
       (update_task dbWithDeliv 5 "t1" "alice" donePatch).2)) ∧
    (∀ ns, donePatch.status = some ns → ns ≠ exTask.status →
      ∃ e, ((update_task dbWithDeliv 5 "t1" "alice" donePatch).2).events =
          dbWithDeliv.events ++ [e] ∧ e.event_type = "STATUS_CHANGED" ∧
        e.processed = false ∧
        e.payload = JVal.obj [("task_id", .str "t1"),
          ("old_status", .str (statusStr exTask.status)),
          ("new_status", .str (statusStr ns))]) :=
  ⟨rfl, rfl,
   (c5_status_change_event dbWithDeliv 5 "t1" "alice" donePatch exTask
      (okTask (update_task dbWithDeliv 5 "t1" "alice" donePatch).1)
      ((update_task dbWithDeliv 5 "t1" "alice" donePatch).2) rfl rfl).1⟩

/-- C4 (amended): every successful `create_task`, `update_task`,
`add_deliverable` and `add_insight` appends exactly one new audit entry
whose entity_id is the id of the mutated entity, while `approve_task` and
`reject_task` each append exactly two (the TASK_UPDATED entry of the
inner update plus their own HUMAN_APPROVED/HUMAN_REJECTED entry), all of
them carrying the task id as entity_id. -/
theorem c4_audit_completeness
    (db : DBState) (now : Nat) (args : CreateTaskArgs)
    (tidU actorU : String) (patchU : TaskPatch) (tU : Task) (dbU : DBState)
    (hU : update_task db now tidU actorU patchU = (.ok tU, dbU))
    (tidA approverA : String) (tA : Task) (hA : get_task db tidA = some tA)
    (tidR rejectorR : String) (reasonR : Option String) (tR : Task)
    (hR : get_task db tidR = some tR)
    (dtid dtitle dcontent dcreator dctype : String) (dfin : Bool)
    (iagent icontent : String) (itid : Option String) (itype : String) :
    (∃ a, ((create_task db now args).2).audit_log = db.audit_log ++ [a] ∧
      a.entity_id = (create_task db now args).1.id)
    ∧ (∃ a, dbU.audit_log = db.audit_log ++ [a] ∧ a.entity_id = tidU)
    ∧ (∃ a1 a2, ((approve_task db now tidA approverA).2).audit_log =
        db.audit_log ++ [a1, a2] ∧ a1.entity_id = tidA ∧ a2.entity_id = tidA)
    ∧ (∃ a1 a2, ((reject_task db now tidR rejectorR reasonR).2).audit_log =
        db.audit_log ++ [a1, a2] ∧ a1.entity_id = tidR ∧ a2.entity_id = tidR)
    ∧ (∃ a, ((add_deliverable db now dtid dtitle dcontent dcreator dctype dfin).2).audit_log =
        db.audit_log ++ [a] ∧
      a.entity_id = (add_deliverable db now dtid dtitle dcontent dcreator dctype dfin).1.id)
    ∧ (∃ a, ((add_insight db now iagent icontent itid itype).2).audit_log =
        db.audit_log ++ [a] ∧
      a.entity_id = (add_insight db now iagent icontent itid itype).1.id) := by
  refine ⟨?_, ?_, ?_, ?_, ?_, ?_⟩
  · obtain ⟨a, h1, h2, _⟩ := create_task_audit db now args
    exact ⟨a, h1, h2⟩
  · obtain ⟨current, hc, ht', hdb'⟩ :=
      update_task_ok_commit db now tidU actorU patchU tU dbU hU
    subst hdb'
    obtain ⟨a, h1, _, h3⟩ := commit_state_audit db now tidU actorU patchU current
    exact ⟨a, h1, h3⟩
  · obtain ⟨a1, a2, h1, h2, h3, _, _⟩ := approve_task_audit db now tidA approverA tA hA
    exact ⟨a1, a2, h1, h2, h3⟩
  · obtain ⟨a1, a2, h1, h2, h3, _, _, _, _, _⟩ :=
      reject_task_audit db now tidR rejectorR reasonR tR hR
    exact ⟨a1, a2, h1, h2, h3⟩
  · obtain ⟨a, h1, h2, _⟩ := add_deliverable_audit db now dtid dtitle dcontent dcreator dctype dfin
    exact ⟨a, h1, h2⟩
  · obtain ⟨a, h1, h2, _⟩ := add_insight_audit db now iagent icontent itid itype
    exact ⟨a, h1, h2⟩

/-- Counterexample to C4 as stated: on `dbWithDeliv` the approval of task
t1 succeeds yet appends two audit entries, not exactly one. -/
theorem c4_counterexample :
    (∃ ta, (approve_task dbWithDeliv 7 "t1" "boss").1 = .ok ta) ∧
    ((approve_task dbWithDeliv 7 "t1" "boss").2).audit_log.length =
      dbWithDeliv.audit_log.length + 2 ∧
    dbWithDeliv.audit_log.length = 0 :=
  ⟨⟨_, rfl⟩, rfl, rfl⟩

/-- Witness for C4 at concrete inputs: one of each operation on
`dbWithDeliv`. -/
theorem c4_audit_completeness_witness :
    update_task dbWithDeliv 7 "t1" "bob" { title := some "renamed" } =
      (.ok (okTask (update_task dbWithDeliv 7 "t1" "bob" { title := some "renamed" }).1),
       (update_task dbWithDeliv 7 "t1" "bob" { title := some "renamed" }).2) ∧
    get_task dbWithDeliv "t1" = some exTask ∧
    (∃ a, ((create_task dbWithDeliv 7 { title := "fresh" }).2).audit_log =
        dbWithDeliv.audit_log ++ [a] ∧
      a.entity_id = (create_task dbWithDeliv 7 { title := "fresh" }).1.id) ∧
    (∃ a1 a2, ((approve_task dbWithDeliv 7 "t1" "boss").2).audit_log =
        dbWithDeliv.audit_log ++ [a1, a2] ∧
      a1.entity_id = "t1" ∧ a2.entity_id = "t1") := by
  have h := c4_audit_completeness dbWithDeliv 7 { title := "fresh" }
    "t1" "bob" { title := some "renamed" }
    (okTask (update_task dbWithDeliv 7 "t1" "bob" { title := some "renamed" }).1)
    ((update_task dbWithDeliv 7 "t1" "bob" { title := some "renamed" }).2) rfl
    "t1" "boss" exTask rfl
    "t1" "jane" (some "needs work") exTask rfl
    "t1" "notes" "body" "researcher" "text" false
    "researcher" "an observation" none "observation"
  exact ⟨rfl, rfl, h.1, h.2.2.1⟩

/-- C7: for every existing task, `reject_task` succeeds, forces the row's
status back to BACKLOG, clears approved_by and approved_at, and writes a
HUMAN_REJECTED audit entry whose metadata carries the reason while its
old_value and new_value stay empty. -/
theorem c7_reject_task
    (db : DBState) (now : Nat) (tid rejector : String) (reason : Option String)
    (t : Task) (h : get_task db tid = some t) :
    ∃ t' db', reject_task db now tid rejector reason = (.ok t', db') ∧
      t'.status = TaskStatus.BACKLOG ∧ t'.approved_by = none ∧
      t'.approved_at = none ∧ get_task db' tid = some t' ∧
      ∃ a1 a2, db'.audit_log = db.audit_log ++ [a1, a2] ∧
        a2.event_type = "HUMAN_REJECTED" ∧ a2.entity_id = tid ∧
        a2.metadata = JVal.obj [("reason", jstrOpt reason)] ∧
        a2.old_value = none ∧ a2.new_value = none := by
  obtain ⟨a1, a2, haud, hid1, hid2, hty1, hty2, hmd, hov, hnv⟩ :=
    reject_task_audit db now tid rejector reason t h
  rw [reject_task_eq db now tid rejector reason t h] at haud ⊢
  refine ⟨_, _, rfl, rfl, rfl, rfl, ?_, a1, a2, haud, hty2, hid2, hmd, hov, hnv⟩
  rw [get_task_log_audit]
  exact commit_state_get_task db now tid rejector rejectPatch t h

/-- Witness for C7 at the concrete store `dbWithDeliv`. -/
theorem c7_reject_task_witness :
    get_task dbWithDeliv "t1" = some exTask ∧
    ∃ t' db', reject_task dbWithDeliv 9 "t1" "jane" (some "redo") = (.ok t', db') ∧
      t'.status = TaskStatus.BACKLOG ∧ t'.approved_by = none ∧
      t'.approved_at = none ∧ get_task db' "t1" = some t' ∧
      ∃ a1 a2, db'.audit_log = dbWithDeliv.audit_log ++ [a1, a2] ∧
        a2.event_type = "HUMAN_REJECTED" ∧ a2.entity_id = "t1" ∧
        a2.metadata = JVal.obj [("reason", jstrOpt (some "redo"))] ∧
        a2.old_value = none ∧ a2.new_value = none :=
  ⟨rfl, c7_reject_task dbWithDeliv 9 "t1" "jane" (some "redo") exTask rfl⟩

/-- C10: a successful `approve_task` on an existing task changes exactly
the fields approved_by, approved_at and updated_at — every other field of
the row, including status, is untouched, both in the returned task and in
the stored row. -/
theorem c10_approve_frame
    (db : DBState) (now : Nat) (tid approver : String) (t : Task)
    (h : get_task db tid = some t) :
    ∃ db', approve_task db now tid approver =
        (.ok { t with approved_by := some approver, approved_at := some now, updated_at := now }, db')
      ∧ get_task db' tid =
          some { t with approved_by := some approver, approved_at := some now, updated_at := now } := by
  rw [approve_task_eq db now tid approver t h]
  refine ⟨_, rfl, ?_⟩
  rw [get_task_log_audit]
  exact commit_state_get_task db now tid approver (approvePatch approver now) t h

/-- Witness for C10 at the concrete store `dbWithDeliv`. -/
theorem c10_approve_frame_witness :
    get_task dbWithDeliv "t1" = some exTask ∧
    ∃ db', approve_task dbWithDeliv 8 "t1" "boss" =
        (.ok { exTask with approved_by := some "boss", approved_at := some 8, updated_at := 8 }, db')
      ∧ get_task db' "t1" =
          some { exTask with approved_by := some "boss", approved_at := some 8, updated_at := 8 } :=
  ⟨rfl, c10_approve_frame dbWithDeliv 8 "t1" "boss" exTask rfl⟩

/-- C6: insight promotion fails with Unauthorized for any actor other
than the router identity "jarvis" and with NotFound when the insight does
not exist; on success the new task's description is the full insight
content, its source is "insight_promotion", its title is the 100-character
truncated prefix of the content behind the marker, and the insight's
promoted_to_task_id and promoted_at get stamped. -/
theorem c6_promote_insight (db : DBState) (now : Nat) (iid actor : String) :
    (actor ≠ "jarvis" →
      promote_insight db now iid actor =
        (.error "Only Jarvis can promote insights to tasks", db))
    ∧ (actor = "jarvis" → db.insights.find? (fun i => i.id == iid) = none →
      promote_insight db now iid actor =
        (.error ("Insight " ++ iid ++ " not found"), db))
    ∧ (∀ ins, actor = "jarvis" → db.insights.find? (fun i => i.id == iid) = some ins →
      ∃ task db', promote_insight db now iid actor = (.ok task, db') ∧
        task.description = some ins.content ∧
        task.source = "insight_promotion" ∧
        task.title = "[From Insight] " ++ ins.content.take 100 ∧
        db'.insights.find? (fun i => i.id == iid) =
          some { ins with promoted_to_task_id := some task.id, promoted_at := some now }) := by
  refine ⟨?_, ?_, ?_⟩
  · intro hne
    unfold promote_insight
    rw [if_pos hne]
  · intro he hnone
    unfold promote_insight
    rw [if_neg (by simp [he])]
    unfold promote_insight_to_task
    rw [hnone]
  · intro ins he hfind
    unfold promote_insight
    rw [if_neg (by simp [he])]
    unfold promote_insight_to_task
    rw [hfind]
    refine ⟨_, _, rfl, rfl, rfl, rfl, ?_⟩
    exact find?_map_ite (fun i => i.id == iid)
      (fun i => { i with
        promoted_to_task_id := some ((create_task db now
          { title := "[From Insight] " ++ ins.content.take 100,
            description := some ins.content, assigned_by := actor,
            source := "insight_promotion" }).1).id,
        promoted_at := some now })
      (fun x => rfl) db.insights ins hfind

/-- Witness for C6 at the concrete store `dbInsight`. -/
theorem c6_promote_insight_witness :
    ("eve" ≠ "jarvis" ∧
      promote_insight dbInsight 9 "i1" "eve" =
        (.error "Only Jarvis can promote insights to tasks", dbInsight)) ∧
    (dbInsight.insights.find? (fun i => i.id == "i1") = some exInsight ∧
      ∃ task db', promote_insight dbInsight 9 "i1" "jarvis" = (.ok task, db') ∧
        task.description = some exInsight.content ∧
        task.source = "insight_promotion" ∧
        task.title = "[From Insight] " ++ exInsight.content.take 100 ∧
        db'.insights.find? (fun i => i.id == "i1") =
          some { exInsight with promoted_to_task_id := some task.id, promoted_at := some 9 }) :=
  ⟨⟨by decide, (c6_promote_insight dbInsight 9 "i1" "eve").1 (by decide)⟩,
   ⟨rfl, (c6_promote_insight dbInsight 9 "i1" "jarvis").2.2 exInsight rfl rfl⟩⟩

/-- C3 (amended): the sessions `get_current_autonomy_mode` considers are
exactly those with `now` strictly inside the open window
`(starts_at, expires_at)` — the code filters with `starts_at < now`, not
`starts_at ≤ now` — with `revoked_at` unset and, when an agent id is
given, `granted_to` equal to it or null; among the considered sessions
the one with the strictly latest `created_at` determines the returned
mode, and with no considered session the mode is "advisory". -/
theorem c3_autonomy_resolution (db : DBState) (now : Nat) (agentId : Option String) :
    (∀ sess, sessionMatches now agentId sess = true ↔
      (sess.starts_at < now ∧ now < sess.expires_at ∧ sess.revoked_at = none ∧
       (∀ a, agentId = some a → (sess.granted_to = some a ∨ sess.granted_to = none))))
    ∧ ((∀ sess ∈ db.autonomy_sessions, sessionMatches now agentId sess = false) →
      get_current_autonomy_mode db now agentId = "advisory")
    ∧ (∀ sess ∈ db.autonomy_sessions, sessionMatches now agentId sess = true →
      (∀ t ∈ db.autonomy_sessions, sessionMatches now agentId t = true →
        t ≠ sess → t.created_at < sess.created_at) →
      get_current_autonomy_mode db now agentId = sess.mode) := by
  refine ⟨sessionMatches_iff now agentId, mode_default db now agentId, ?_⟩
  intro sess hmem hmatch hmax
  exact mode_of_strict_max db now agentId sess hmem hmatch hmax

/-- Counterexample to C3 as stated: a session whose window starts exactly
at the query instant lies in `[starts_at, expires_at)` and should be the
(sole, hence latest) considered session per the claim, but the code's
strict `starts_at < now` filter drops it and resolves to "advisory". -/
theorem c3_counterexample :
    sessionConsideredClaim 5 none sessBoundary = true ∧
    sessionMatches 5 none sessBoundary = false ∧
    sessBoundary ∈ dbBoundary.autonomy_sessions ∧
    get_current_autonomy_mode dbBoundary 5 none = "advisory" ∧
    sessBoundary.mode ≠ "advisory" := by
  refine ⟨rfl, rfl, List.mem_cons_self _ _, rfl, by decide⟩

/-- Witness for C3 at the concrete store `dbAutonomy`: the scoped later
session wins for agent A, the global one for agent B, and an instant past
expiry resolves to the default. -/
theorem c3_autonomy_resolution_witness :
    (sessScopedA ∈ dbAutonomy.autonomy_sessions ∧
      sessionMatches 50 (some "A") sessScopedA = true ∧
      (∀ t ∈ dbAutonomy.autonomy_sessions, sessionMatches 50 (some "A") t = true →
        t ≠ sessScopedA → t.created_at < sessScopedA.created_at) ∧
      get_current_autonomy_mode dbAutonomy 50 (some "A") = "full_autonomy") ∧
    (get_current_autonomy_mode dbAutonomy 50 (some "B") = "advisory") ∧
    ((∀ sess ∈ dbAutonomy.autonomy_sessions, sessionMatches 200 (some "A") sess = false) ∧
      get_current_autonomy_mode dbAutonomy 200 (some "A") = "advisory") := by
  refine ⟨⟨by decide, by decide, by decide, ?_⟩, rfl, ⟨by decide, ?_⟩⟩
  · exact (c3_autonomy_resolution dbAutonomy 50 (some "A")).2.2 sessScopedA
      (by decide) (by decide) (by decide)
  · exact (c3_autonomy_resolution dbAutonomy 200 (some "A")).2.1 (by decide)

/-- C9: when `get_current_autonomy_mode` is called without an agent id, no
granted_to filter is applied — the filter reduces to the window and
revocation checks alone — so an active agent-scoped session with the
strictly latest created_at determines the mode of the unscoped query. -/
theorem c9_unscoped_considers_scoped (db : DBState) (now : Nat)
    (sess : AutonomySession) (hmem : sess ∈ db.autonomy_sessions)
    (hact : sess.starts_at < now ∧ now < sess.expires_at ∧ sess.revoked_at = none)
    (hmax : ∀ t ∈ db.autonomy_sessions, t.starts_at < now → now < t.expires_at →
      t.revoked_at = none → t ≠ sess → t.created_at < sess.created_at) :
    (∀ t, sessionMatches now none t =
      (decide (t.starts_at < now) && decide (now < t.expires_at) && t.revoked_at.isNone))
    ∧ get_current_autonomy_mode db now none = sess.mode := by
  constructor
  · intro t
    exact Bool.and_true _
  · have hmatch : sessionMatches now none sess = true := by
      rw [sessionMatches_iff]
      exact ⟨hact.1, hact.2.1, hact.2.2, fun a ha => Option.noConfusion ha⟩
    apply mode_of_strict_max db now none sess hmem hmatch
    intro t ht hmt hne
    rw [sessionMatches_iff] at hmt
    exact hmax t ht hmt.1 hmt.2.1 hmt.2.2.1 hne

/-- Witness for C9: on `dbAutonomy` the unscoped query resolves to the
mode of the later, agent-scoped session. -/
theorem c9_unscoped_considers_scoped_witness :
    sessScopedA ∈ dbAutonomy.autonomy_sessions ∧
    (sessScopedA.starts_at < 50 ∧ 50 < sessScopedA.expires_at ∧
      sessScopedA.revoked_at = none) ∧
    (∀ t ∈ dbAutonomy.autonomy_sessions, t.starts_at < 50 → 50 < t.expires_at →
      t.revoked_at = none → t ≠ sessScopedA → t.created_at < sessScopedA.created_at) ∧
    sessScopedA.granted_to = some "A" ∧
    get_current_autonomy_mode dbAutonomy 50 none = sessScopedA.mode :=
  ⟨by decide, by decide, by decide, rfl,
   (c9_unscoped_considers_scoped dbAutonomy 50 sessScopedA (by decide) (by decide)
     (by decide)).2⟩

end Workforce
